import Mathlib

/-!
# Verification of the `route_codegen` route-discovery and code-generation pipeline

Shallow embedding of `route_codegen/src/lib.rs` and
`route_codegen/src/configure_builder.rs` (the discovery → resolution →
grouping → emission pipeline) together with theorems settling the frozen
claims about this program.

External collaborators (the `syn` parser, the `globset` glob library,
`std::path` operations, the `quote!` token renderer) are modelled at the
interface the source uses, as the specification prescribes ("parse text →
abstract syntax items, or fail", glob include/exclude matching, path
component splitting, linear token emission).
-/

namespace RouteCodegen

/-! ## Data model

`RouteFunction` mirrors the struct of the same name in `lib.rs`:
name, HTTP method, route path, and the module prefix computed by
`build_module_prefix` (a `"::"`-separated string). -/

structure RouteFunction where
  name : String
  method : String
  route_path : String
  module_prefix : String
deriving DecidableEq, Repr

/-- A function attribute as the extractor sees it through `syn`:
the path segments of the attribute name (e.g. `["get"]` or
`["actix_web", "get"]`), and the result of `attr.parse_args::<LitStr>()`
on its argument tokens — `some s` when the arguments parse as a single
string literal `s`, `none` otherwise (no argument, or non-literal
arguments).  The parser itself is an opaque external capability. -/
structure RAttr where
  segments : List String
  arg : Option String
deriving DecidableEq, Repr

/-- The subset of `syn::Item` the extractor inspects
(`process_item_with_module` matches on `Item::Fn` and `Item::Mod` and
ignores everything else): a function with its name and attribute list, a
module with its name and optional inline content, or any other item. -/
inductive Item where
  | fn (name : String) (attrs : List RAttr)
  | md (name : String) (content : Option (List Item))
  | other

/-! ## String helpers

Rust's `str::split`, `to_lowercase`, `starts_with` and the std path
accessors are modelled by structurally recursive functions over the
character list of a string (executable and kernel-reducible). -/

/-- Split a character list on a separator character, keeping empty
segments (the semantics of Rust's `str::split`). -/
def split_on_char (sep : Char) : List Char → List (List Char)
  | [] => [[]]
  | c :: cs =>
    let r := split_on_char sep cs
    if c = sep then [] :: r
    else
      match r with
      | [] => [[c]]
      | h :: t => (c :: h) :: t

/-- Split a character list on the two-character separator `::`
(the semantics of Rust's `str::split("::")`). -/
def split_double_colon : List Char → List (List Char)
  | [] => [[]]
  | ':' :: ':' :: cs => [] :: split_double_colon cs
  | c :: cs =>
    match split_double_colon cs with
    | [] => [[c]]
    | h :: t => (c :: h) :: t

/-- `s.split("::")` on a string. -/
def split_cc (s : String) : List String :=
  (split_double_colon s.toList).map String.mk

/-- `s.split('/')` on a string. -/
def split_slash (s : String) : List String :=
  (split_on_char '/' s.toList).map String.mk

/-- `s.split('.')` on a string. -/
def split_dot (s : String) : List String :=
  (split_on_char '.' s.toList).map String.mk

/-- Rust `str::to_lowercase` for ASCII identifiers. -/
def str_to_lower (s : String) : String :=
  String.mk (s.toList.map Char.toLower)

/-! ## Route-attribute recognition (`lib.rs` 651–722) -/

/-- `METHOD_MAP` from `lib.rs`: the nine supported HTTP-method
attribute names, paired with the emitted method name. -/
def METHOD_MAP : List (String × String) :=
  [("get", "get"), ("post", "post"), ("put", "put"), ("delete", "delete"),
   ("head", "head"), ("connect", "connect"), ("options", "options"),
   ("trace", "trace"), ("patch", "patch")]

/-- `is_route_attribute`: the attribute path is a single identifier equal
to one of the nine method names, or exactly two segments
`actix_web::<method>`. -/
def is_route_attribute (attr : RAttr) : Bool :=
  METHOD_MAP.any fun kv =>
    attr.segments = [kv.1] ||
      (attr.segments.length = 2 &&
        attr.segments.getD 0 "" = "actix_web" &&
        attr.segments.getD 1 "" = kv.1)

/-- `get_attr_key`: the lowercased identifier of the attribute, but only
when the attribute path has exactly one segment; `None` otherwise. -/
def get_attr_key (attr : RAttr) : Option String :=
  if attr.segments.length = 1 then
    some (str_to_lower (attr.segments.getD 0 ""))
  else
    none

/-- `parse_route_attribute`: look the key up in `METHOD_MAP`, then require
the attribute argument to parse as a string literal. -/
def parse_route_attribute (attr : RAttr) : Option (String × String) :=
  match get_attr_key attr with
  | none => none
  | some key =>
    match METHOD_MAP.find? (fun kv => kv.1 = key) with
    | none => none
    | some kv =>
      match attr.arg with
      | some p => some (kv.2, p)
      | none => none

/-- `extract_route_info`: fold over the attribute list, overwriting the
recorded method and path each time a recognized attribute's arguments
parse successfully; produce a `RouteFunction` only if both were set. -/
def extract_route_info (name : String) (attrs : List RAttr) :
    Option RouteFunction :=
  let mp := attrs.foldl
    (fun (acc : Option String × Option String) attr =>
      if is_route_attribute attr then
        match parse_route_attribute attr with
        | some r => (some r.1, some r.2)
        | none => acc
      else acc)
    (none, none)
  match mp with
  | (some m, some p) =>
    some { name := name, method := m, route_path := p, module_prefix := "" }
  | _ => none

/-! ## Module-path construction (`lib.rs` 529–639, 725–743) -/

/-- `build_module_prefix`: join the module stack with `"::"`, skipping
every segment equal to `"crate"` or `"mod"` wherever it occurs (the
`match s { "crate" | "mod" => continue, .. }` loop). -/
def build_module_prefix (current_module : List String) : String :=
  (current_module.foldl
    (fun (acc : String × Bool) s =>
      if s = "crate" || s = "mod" then acc
      else (acc.1 ++ (if acc.2 then "" else "::") ++ s, false))
    ("", true)).1

/-- The last `/`-component of a relative path (std `file_name`, for plain
relative paths made of normal components). -/
def path_file_name (p : String) : String :=
  (split_slash p).getLastD ""

/-- std `Path::file_stem` for an ordinary file name: the part before the
last `.`, or the whole name if it has no `.`. -/
def file_stem (name : String) : String :=
  let parts := split_dot name
  if parts.length ≤ 1 then name else String.intercalate "." parts.dropLast

/-- std `Path::extension` for an ordinary file name: the part after the
last `.`, if any. -/
def path_extension (p : String) : Option String :=
  let parts := split_dot (path_file_name p)
  if parts.length ≤ 1 then none else some (parts.getLastD "")

/-- `build_current_module`: start from the `"::"`-segments of the base
module path, append the directory components of the file's path relative
to the `src` root (skipping a component named `main`; empty components do
not arise from std path component iteration), then append the file stem
unless it is `main` or `lib`. -/
def build_current_module (base_module_path : String) (relPath : String) :
    List String :=
  let comps := split_slash relPath
  let start := (split_cc base_module_path).filter (fun s => s ≠ "")
  let dirs := comps.dropLast.filter (fun s => s ≠ "main" && s ≠ "")
  let stem := file_stem (path_file_name relPath)
  if stem ≠ "main" && stem ≠ "lib" then
    start ++ dirs ++ [stem]
  else
    start ++ dirs

mutual
/-- `process_item_with_module` / `handle_function` / `handle_module`:
a function item contributes a declaration (with `module_prefix` set from
the current stack) when `extract_route_info` succeeds; a module item
pushes the file stem *and* the module name when they coincide, else just
the module name, recurses into its inline content, and pops on exit
(modelled by passing the extended stack down). -/
def process_item_with_module (item : Item) (current_module : List String)
    (stem : String) : List RouteFunction :=
  match item with
  | .fn name attrs =>
    match extract_route_info name attrs with
    | some rf => [{ rf with module_prefix := build_module_prefix current_module }]
    | none => []
  | .md name content =>
    let pushed :=
      if stem = name then current_module ++ [stem, name]
      else current_module ++ [name]
    match content with
    | some items => process_items items pushed stem
    | none => []
  | .other => []

/-- Processing of a list of items in order (the `for item in items` loop),
concatenating each item's contribution. -/
def process_items (items : List Item) (current_module : List String)
    (stem : String) : List RouteFunction :=
  match items with
  | [] => []
  | i :: rest =>
    process_item_with_module i current_module stem ++
      process_items rest current_module stem
end

/-! ## Per-file processing and the pattern-path driver loop
(`lib.rs` 44–91, 465–526) -/

/-- `MAX_FILE_SIZE` from `process_file`: 10 MB. -/
def MAX_FILE_SIZE : Nat := 10 * 1024 * 1024

/-- One candidate file as `process_file` receives it: its size in bytes,
the outcome of the opaque external parse (`some items` on success, `none`
on a parse or read failure), the base module path chosen by the caller,
and its path relative to the `src` root. -/
structure FileInput where
  size : Nat
  parsed : Option (List Item)
  base : String
  relPath : String

/-- `process_file`: reject oversized files, fail on parse failure before
extracting anything, otherwise build the current module path and process
all top-level items.  On error nothing is contributed. -/
def process_file (f : FileInput) : Except String (List RouteFunction) :=
  if f.size > MAX_FILE_SIZE then
    .error ("File size exceeds limit: " ++ f.relPath)
  else
    match f.parsed with
    | none => .error "Failed to parse file content"
    | some items =>
      let current_module := build_current_module f.base f.relPath
      let stem := file_stem (path_file_name f.relPath)
      .ok (process_items items current_module stem)

/-- The driver loop of `generate_configure` in the pattern path
(`lib.rs` 66–77): each file is processed in turn; a failing file is
reported and skipped, a succeeding file appends its declarations to the
shared result. -/
def collect_route_functions (files : List FileInput) : List RouteFunction :=
  files.foldl
    (fun acc f =>
      match process_file f with
      | .ok rs => acc ++ rs
      | .error _ => acc)
    []

/-- The file filter of the no-pattern path (`handle_file`, `lib.rs`
465–482, reached from `scan_directory` with `exclude_files = []`):
process the entry when its extension is `rs` and its name is not in
`exclude_files`; no other exclusion is applied on this path. -/
def handle_file_no_pattern (excludeFiles : List String) (f : FileInput) :
    Option (List RouteFunction) :=
  if path_extension f.relPath ≠ some "rs" ||
      excludeFiles.contains (path_file_name f.relPath) then
    none
  else
    (process_file f).toOption

/-! ## Glob matching and scan rules (`lib.rs` 94–172, 246–264)

The source delegates matching to the external `globset` crate, built with
`Glob::new` under default settings (`*` matches any character sequence,
`**` as a whole path component matches zero or more components, per the
crate's documented translation).  The model compiles a pattern into a
disjunction of simple token sequences over literal characters and `*`. -/

/-- Simple glob token: a literal character, or `*` (any character
sequence — `globset`'s default `literal_separator = false`). -/
inductive GTok where
  | lit (c : Char)
  | star
deriving DecidableEq, Repr

/-- `*` matching: the rest of the pattern (as a matching continuation
`k`) may start at any suffix of the input. -/
def gstar (k : List Char → Bool) : List Char → Bool
  | [] => k []
  | c :: cs => k (c :: cs) || gstar k cs

/-- Matching a simple token sequence against a character list. -/
def gmatch : List GTok → List Char → Bool
  | [] => fun cs => cs.isEmpty
  | .lit c :: ts => fun cs =>
    match cs with
    | [] => false
    | c2 :: cs2 => c = c2 && gmatch ts cs2
  | .star :: ts => gstar (gmatch ts)

/-- Compile the body of a glob (after any leading `**/`) into the list of
its disjuncts: `/**/` stands for a single `/` or `/…/`; a trailing `/**`
stands for `/` followed by anything; `*` is a plain star. -/
def glob_compile : List Char → List (List GTok)
  | [] => [[]]
  | '/' :: '*' :: '*' :: '/' :: rest =>
    let rs := glob_compile rest
    rs.map (fun r => .lit '/' :: r) ++
      rs.map (fun r => .lit '/' :: .star :: .lit '/' :: r)
  | ['/', '*', '*'] => [[.lit '/', .star]]
  | '*' :: rest => (glob_compile rest).map (fun r => .star :: r)
  | c :: rest => (glob_compile rest).map (fun r => .lit c :: r)

/-- Compile a whole glob pattern: a leading `**/` matches zero or more
leading path components. -/
def glob_compile_top (p : List Char) : List (List GTok) :=
  match p with
  | '*' :: '*' :: '/' :: rest =>
    let rs := glob_compile rest
    rs ++ rs.map (fun r => .star :: .lit '/' :: r)
  | _ => glob_compile p

/-- A single glob pattern matches a path. -/
def glob_is_match (pattern path : String) : Bool :=
  (glob_compile_top pattern.toList).any (fun d => gmatch d path.toList)

/-- A `GlobSet` built from a pattern list matches a path when any of its
patterns does. -/
def glob_set_is_match (patterns : List String) (path : String) : Bool :=
  patterns.any (fun p => glob_is_match p path)

/-- `ScanRules` from `lib.rs`, keeping the pattern lists from which the
two glob sets are built. -/
structure ScanRules where
  include_patterns : List String
  exclude_patterns : List String
deriving DecidableEq, Repr

/-- `ScanRules::should_include`: included by the include set and not
matched by the exclude set. -/
def ScanRules.should_include (rules : ScanRules) (path : String) : Bool :=
  glob_set_is_match rules.include_patterns path &&
    !glob_set_is_match rules.exclude_patterns path

/-- `split_include_exclude`: patterns starting with `!` go, stripped, to
the exclude list; all others to the include list, order preserved. -/
def split_include_exclude (patterns : List String) :
    List String × List String :=
  patterns.foldl
    (fun acc p =>
      match p.toList with
      | '!' :: rest => (acc.1, acc.2 ++ [String.mk rest])
      | _ => (acc.1 ++ [p], acc.2))
    ([], [])

/-- `build_scan_rules`: append the fixed default exclusion
`!route_codegen/src/**` to the caller's patterns, then split. -/
def build_scan_rules (patterns : List String) : ScanRules :=
  let all_patterns := patterns ++ ["!route_codegen/src/**"]
  let ie := split_include_exclude all_patterns
  { include_patterns := ie.1, exclude_patterns := ie.2 }

/-- `should_skip_file` (pattern path): directories are never skipped
here; files are skipped when the extension is not `rs`, when the file
name is exactly `main.rs`, or when the rules reject the (normalized)
relative path. -/
def should_skip_file (isFile : Bool) (relPath : String)
    (rules : ScanRules) : Bool :=
  if !isFile then false
  else if path_extension relPath ≠ some "rs" then true
  else if path_file_name relPath = "main.rs" then true
  else !(rules.should_include relPath)

/-! ## Grouping and code emission (`configure_builder.rs`)

`group_functions_by_module` builds a `std::collections::HashMap`; its
iteration order is unspecified (randomized per process).  The embedding
represents the map as an association list in first-insertion order; any
permutation of that list is a possible iteration order of the map, and
the emission stage below is defined over such an ordered list exactly as
the `for (module_path, functions) in grouped` loop consumes it. -/

/-- The grouping key of one declaration: the `"::"`-segments of its
module prefix, empty segments dropped. -/
def module_segments (f : RouteFunction) : List String :=
  (split_cc f.module_prefix).filter (fun s => s ≠ "")

/-- Add one declaration to the association list under its key
(`grouped.entry(..).or_insert_with(Vec::new).push(..)`). -/
def insert_grouped (acc : List (List String × List RouteFunction))
    (key : List String) (f : RouteFunction) :
    List (List String × List RouteFunction) :=
  match acc with
  | [] => [(key, [f])]
  | (k, fs) :: rest =>
    if k = key then (k, fs ++ [f]) :: rest
    else (k, fs) :: insert_grouped rest key f

/-- `group_functions_by_module`: group by exact module-segment equality,
keys listed in first-insertion order. -/
def group_functions_by_module (functions : List RouteFunction) :
    List (List String × List RouteFunction) :=
  functions.foldl (fun acc f => insert_grouped acc (module_segments f) f) []

/-- Modelled from the spec: `is_rust_keyword` lives in
`route_codegen/src/tools.rs`, which is not among the sources; per the
spec it recognizes the reserved words of the target language (Rust), e.g.
`type`, so that colliding path segments get raw-identifier escaping. -/
def RUST_KEYWORDS : List String :=
  ["as", "async", "await", "break", "const", "continue", "crate", "dyn",
   "else", "enum", "extern", "false", "fn", "for", "if", "impl", "in",
   "let", "loop", "match", "mod", "move", "mut", "pub", "ref", "return",
   "self", "Self", "static", "struct", "super", "trait", "true", "type",
   "unsafe", "use", "where", "while", "abstract", "become", "box", "do",
   "final", "macro", "override", "priv", "try", "typeof", "unsized",
   "virtual", "yield"]

/-- Modelled from the spec: membership in the reserved-word list. -/
def is_rust_keyword (s : String) : Bool :=
  RUST_KEYWORDS.contains s

/-- Escape one path segment of the fully-qualified handler reference:
keyword segments get the `r#` raw-identifier prefix
(`Ident::new(&format!("r#{}", s))` in `generate_module_configure`). -/
def escape_segment (s : String) : String :=
  if is_rust_keyword s then "r#" ++ s else s

/-- Rust `str::to_uppercase` for ASCII method names. -/
def str_to_upper (s : String) : String :=
  String.mk (s.toList.map Char.toUpper)

/-- `safe_mod_name`: the module path joined with `_`, used in the
generated `configure_…`/`register_…` identifiers. -/
def safe_mod_name (module_path : List String) : String :=
  String.intercalate "_" module_path

/-- The mount scope of a module group: `/` when the joined path is empty,
else `/` followed by the `/`-joined path. -/
def mod_scope (module_path : List String) : String :=
  let scope_name := String.intercalate "/" module_path
  if scope_name = "" then "/" else "/" ++ scope_name

/-- The one `cfg.service(…);` statement described by the `quote!`
template for a declaration: the fully-qualified reference is the
`"::"`-split of the module prefix (no filtering), each segment
keyword-escaped, followed by the function name; the token stream is
modelled as its linear text.  This is the intended text assuming every
identifier construction returns; the actual fallible construction is
`service_stmt_emitted` below. -/
def service_stmt (f : RouteFunction) : String :=
  "cfg.service(" ++
    String.intercalate "::" ((split_cc f.module_prefix).map escape_segment) ++
    "::" ++ f.name ++ ");"

/-- What `generate_module_configure` returns for one group: the rendered
register and configure functions, the configure identifiers to call, and
the `(METHOD, scope ++ path)` diagnostic route pairs. -/
structure ModuleUnit where
  configure_fn : List String
  register_fn : List String
  calls : List String
  routes : List (String × String)
deriving DecidableEq, Repr

/-- `generate_module_configure` (`configure_builder.rs` 54–123). -/
def generate_module_configure (module_path : List String)
    (functions : List RouteFunction) : ModuleUnit :=
  let safe := safe_mod_name module_path
  let scope := mod_scope module_path
  { configure_fn :=
      ["pub fn configure_" ++ safe ++ "(cfg: &mut actix_web::web::ServiceConfig)",
       "cfg.service(actix_web::web::scope(" ++ scope ++
         ").configure(register_" ++ safe ++ "));"],
    register_fn :=
      ("pub fn register_" ++ safe ++ "(cfg: &mut actix_web::web::ServiceConfig)") ::
        functions.map service_stmt,
    calls := ["configure_" ++ safe],
    routes := functions.map (fun f => (str_to_upper f.method, scope ++ f.route_path)) }

/-! ### The fallible identifier construction of the real emitter

`service_stmt` and `generate_module_configure` above give the text the
`quote!` template describes; but the source builds each path segment with
`proc_macro2::Ident::new`, which is partial: it panics on any string that
is not a plain identifier — in particular on the `r#`-prefixed strings
the keyword-escaping branch produces (raw identifiers must be built with
`Ident::new_raw`) and on the empty string.  The following definitions
thread that failure through the emission, `none` standing for a panic
that aborts the macro expansion. -/

/-- `proc_macro2::Ident::new` as the emitter calls it: `none` (panic) on
an `r#`-prefixed string or the empty string, `some s` on the plain
identifier-shaped segments the emitter otherwise passes. -/
def ident_new (s : String) : Option String :=
  match s.toList with
  | [] => none
  | 'r' :: '#' :: _ => none
  | _ => some s

/-- Collect a list of fallible results, failing if any element failed
(a panic anywhere aborts the whole expansion). -/
def collect_options {α : Type} : List (Option α) → Option (List α)
  | [] => some []
  | none :: _ => none
  | some a :: rest =>
    match collect_options rest with
    | none => none
    | some l => some (a :: l)

/-- The emission of one `cfg.service` statement as the source performs
it: `Ident::new` on the function name, then `Ident::new` on each
(keyword-escaped) module-prefix segment; any panic aborts. -/
def service_stmt_emitted (f : RouteFunction) : Option String :=
  match ident_new f.name with
  | none => none
  | some name_ident =>
    match collect_options
        ((split_cc f.module_prefix).map (fun s => ident_new (escape_segment s))) with
    | none => none
    | some segs =>
      some ("cfg.service(" ++ String.intercalate "::" segs ++
        "::" ++ name_ident ++ ");")

/-- `generate_module_configure` with the fallible identifier
construction threaded through: the unit is produced only if every
service statement of the group could be built. -/
def generate_module_configure_emitted (module_path : List String)
    (functions : List RouteFunction) : Option ModuleUnit :=
  match collect_options (functions.map service_stmt_emitted) with
  | none => none
  | some stmts =>
    let safe := safe_mod_name module_path
    let scope := mod_scope module_path
    some
      { configure_fn :=
          ["pub fn configure_" ++ safe ++ "(cfg: &mut actix_web::web::ServiceConfig)",
           "cfg.service(actix_web::web::scope(" ++ scope ++
             ").configure(register_" ++ safe ++ "));"],
        register_fn :=
          ("pub fn register_" ++ safe ++ "(cfg: &mut actix_web::web::ServiceConfig)") ::
            stmts,
        calls := ["configure_" ++ safe],
        routes := functions.map
          (fun f => (str_to_upper f.method, scope ++ f.route_path)) }

/-- `generate_configure_functions_and_routes` (`configure_builder.rs`
30–51): consume the grouped map in iteration order, pushing each group's
register function then its configure function, and extending the call
and route lists. -/
def generate_configure_functions_and_routes
    (grouped : List (List String × List RouteFunction)) :
    List String × List String × List (String × String) :=
  grouped.foldl
    (fun acc kv =>
      let u := generate_module_configure kv.1 kv.2
      (acc.1 ++ u.register_fn ++ u.configure_fn,
       acc.2.1 ++ u.calls,
       acc.2.2 ++ u.routes))
    ([], [], [])

/-- One diagnostic log line of the generated configure body
(`log::info!("🚀 Registered route: {} {}", #method, #path)`, rendered
without the brace placeholders). -/
def route_log_line (r : String × String) : String :=
  "log::info!(Registered route: " ++ r.1 ++ " " ++ r.2 ++ ");"

/-- `build_configure_function` (`configure_builder.rs` 126–157): all
emitted functions, then the top-level `configure` whose body holds the
one-shot guard, one log line per route, and one `cfg.configure(…)` call
per group — modelled as the emitted text lines in order. -/
def build_configure_function (all_configure_fns : List String)
    (all_configure_calls : List String)
    (all_routes : List (String × String)) : List String :=
  all_configure_fns ++
    ["pub fn configure(cfg: &mut actix_web::web::ServiceConfig)",
     "if INITIALIZED.compare_exchange(false, true, SeqCst, SeqCst).is_ok()"] ++
    all_routes.map route_log_line ++
    all_configure_calls.map (fun c => "cfg.configure(" ++ c ++ ");")

/-- The generated output text (as lines) for a given iteration order of
the grouped map. -/
def generated_text (grouped : List (List String × List RouteFunction)) :
    List String :=
  let t := generate_configure_functions_and_routes grouped
  build_configure_function t.1 t.2.1 t.2.2

/-! ## The one-shot logging guard at runtime

The generated `configure` guards its diagnostic logging with a `static`
`AtomicBool` and `compare_exchange(false, true, SeqCst, SeqCst)`.  SeqCst
operations on one atomic linearize, so a concurrent execution of N calls
is modelled by the sequence of their compare-exchange operations in
linearization order: each operation on state `s` succeeds iff `s = false`
and leaves the flag `true`.  A call emits one log line per discovered
route iff its operation succeeded. -/

/-- One `compare_exchange(false, true)` on the flag: returns whether this
call won, and the new flag value. -/
def cas_step (s : Bool) : Bool × Bool := (!s, true)

/-- The per-call outcomes of `n` configure calls in linearization order,
starting from flag value `s`. -/
def run_configure_calls : Nat → Bool → List Bool
  | 0, _ => []
  | n + 1, s =>
    let r := cas_step s
    r.1 :: run_configure_calls n r.2

/-- Total number of diagnostic log lines emitted across `n` calls: the
winning call logs one line per route, every other call logs nothing. -/
def total_log_lines (n : Nat) (routes : List (String × String)) : Nat :=
  ((run_configure_calls n false).map
    (fun won => if won then routes.length else 0)).sum

/-- The declarations a single file contributes to the driver loop's
result: its extracted declarations on success, nothing on error. -/
def file_contribution (f : FileInput) : List RouteFunction :=
  match process_file f with
  | .ok rs => rs
  | .error _ => []

/-- The successful `(method, path)` parses among a function's recognized
route attributes, in traversal order. -/
def route_candidates (attrs : List RAttr) : List (String × String) :=
  attrs.filterMap
    (fun a => if is_route_attribute a then parse_route_attribute a else none)

/-! ## Helper lemmas -/

/-- The `build_module_prefix` fold step ignores elements failing the
keep-predicate, so folding over a list equals folding over its filtered
list. -/
lemma build_module_prefix_foldl_filter (l : List String) (acc : String × Bool) :
    l.foldl
      (fun (acc : String × Bool) s =>
        if s = "crate" || s = "mod" then acc
        else (acc.1 ++ (if acc.2 then "" else "::") ++ s, false)) acc =
    (l.filter (fun s => !(s = "crate" || s = "mod"))).foldl
      (fun (acc : String × Bool) s =>
        if s = "crate" || s = "mod" then acc
        else (acc.1 ++ (if acc.2 then "" else "::") ++ s, false)) acc := by
  induction l generalizing acc with
  | nil => rfl
  | cons c rest ih =>
    by_cases h : (c = "crate" || c = "mod") = true
    · simp only [List.foldl_cons, List.filter_cons, h, if_true, Bool.not_true,
        Bool.false_eq_true, if_false]
      exact ih acc
    · have hf : (c = "crate" || c = "mod") = false := by
        revert h; cases (c = "crate" || c = "mod") <;> simp
      simp only [List.foldl_cons, List.filter_cons, hf, Bool.false_eq_true, if_false,
        Bool.not_false, if_true]
      exact ih _

/-- The driver loop is the concatenation of the per-file contributions. -/
lemma collect_route_functions_foldl (files : List FileInput)
    (acc : List RouteFunction) :
    files.foldl
      (fun acc f =>
        match process_file f with
        | .ok rs => acc ++ rs
        | .error _ => acc) acc =
    acc ++ files.flatMap file_contribution := by
  induction files generalizing acc with
  | nil => simp
  | cons f rest ih =>
    simp only [List.foldl_cons, List.flatMap_cons, file_contribution]
    cases process_file f with
    | ok rs => rw [ih]; simp [List.append_assoc]
    | error e => rw [ih]; simp

/-- `collect_route_functions` as a flat map. -/
lemma collect_route_functions_eq (files : List FileInput) :
    collect_route_functions files = files.flatMap file_contribution := by
  simpa using collect_route_functions_foldl files []

/-- Once the flag is `true`, every later configure call loses its
compare-exchange. -/
lemma run_configure_calls_true (n : Nat) :
    run_configure_calls n true = List.replicate n false := by
  induction n with
  | zero => rfl
  | succ m ih => simp [run_configure_calls, cas_step, ih, List.replicate_succ]

/-- Folding wholesale overwrites over a list lands on its last element
(or the initial accumulator). -/
lemma foldl_overwrite_eq_getLast (l : List (String × String))
    (acc : Option String × Option String) :
    l.foldl (fun _ r => (some r.1, some r.2)) acc =
      match l.getLast? with
      | some r => (some r.1, some r.2)
      | none => acc := by
  induction l generalizing acc with
  | nil => rfl
  | cons r t ih =>
    cases t with
    | nil => simp [List.foldl_cons]
    | cons b t2 =>
      rw [List.foldl_cons, ih, List.getLast?_cons_cons]
      cases hlast : (b :: t2).getLast? with
      | none => simp at hlast
      | some r2 => rfl

/-- The attribute fold of `extract_route_info` equals the overwrite fold
over the successful parses. -/
lemma extract_foldl_eq_candidates (attrs : List RAttr)
    (acc : Option String × Option String) :
    attrs.foldl
      (fun (acc : Option String × Option String) attr =>
        if is_route_attribute attr then
          match parse_route_attribute attr with
          | some r => (some r.1, some r.2)
          | none => acc
        else acc) acc =
    (route_candidates attrs).foldl (fun _ r => (some r.1, some r.2)) acc := by
  induction attrs generalizing acc with
  | nil => rfl
  | cons a rest ih =>
    simp only [List.foldl_cons, route_candidates, List.filterMap_cons]
    by_cases h : is_route_attribute a = true
    · simp only [h, if_true]
      cases parse_route_attribute a with
      | some r => simpa [route_candidates] using ih (some r.1, some r.2)
      | none => simpa [route_candidates] using ih acc
    · have hf : is_route_attribute a = false := by
        revert h; cases is_route_attribute a <;> simp
      simp only [hf, Bool.false_eq_true, if_false]
      simpa [route_candidates] using ih acc

/-- The emission fold over the grouped list appends each group's pieces
in order. -/
lemma generate_configure_foldl
    (grouped : List (List String × List RouteFunction))
    (a b : List String) (c : List (String × String)) :
    grouped.foldl
      (fun acc kv =>
        let u := generate_module_configure kv.1 kv.2
        (acc.1 ++ u.register_fn ++ u.configure_fn,
         acc.2.1 ++ u.calls,
         acc.2.2 ++ u.routes))
      (a, b, c) =
    (a ++ grouped.flatMap (fun kv =>
        (generate_module_configure kv.1 kv.2).register_fn ++
          (generate_module_configure kv.1 kv.2).configure_fn),
     b ++ grouped.flatMap (fun kv => (generate_module_configure kv.1 kv.2).calls),
     c ++ grouped.flatMap (fun kv => (generate_module_configure kv.1 kv.2).routes)) := by
  induction grouped generalizing a b c with
  | nil => simp
  | cons kv rest ih =>
    simp only [List.foldl_cons, List.flatMap_cons]
    rw [ih]
    simp [List.append_assoc]

/-- The emitted diagnostic route list, group by group, in iteration
order, preserving within-group insertion order. -/
lemma generate_routes_eq
    (grouped : List (List String × List RouteFunction)) :
    (generate_configure_functions_and_routes grouped).2.2 =
      grouped.flatMap (fun kv =>
        kv.2.map (fun f =>
          (str_to_upper f.method, mod_scope kv.1 ++ f.route_path))) := by
  unfold generate_configure_functions_and_routes
  rw [generate_configure_foldl]
  simp [generate_module_configure]

/-! ## Claim theorems -/

/-- C1 (counterexample): emission does NOT sort by (module path,
declaration name).  The grouped map's iteration order is unspecified; two
possible orders of the same groups (a list and its reverse, a permutation
of one another) produce different generated output text, and within a
group the routes are emitted in insertion order (`POST /k/b` before
`GET /k/a`), not sorted by declaration name. -/
theorem c1_determinism_counterexample :
    group_functions_by_module
        [⟨"a_fn", "get", "/a", "ka"⟩, ⟨"b_fn", "post", "/b", "kb"⟩] =
      [(["ka"], [⟨"a_fn", "get", "/a", "ka"⟩]),
       (["kb"], [⟨"b_fn", "post", "/b", "kb"⟩])] ∧
    List.Perm
      (group_functions_by_module
        [⟨"a_fn", "get", "/a", "ka"⟩, ⟨"b_fn", "post", "/b", "kb"⟩])
      ((group_functions_by_module
        [⟨"a_fn", "get", "/a", "ka"⟩, ⟨"b_fn", "post", "/b", "kb"⟩]).reverse) ∧
    generated_text
        (group_functions_by_module
          [⟨"a_fn", "get", "/a", "ka"⟩, ⟨"b_fn", "post", "/b", "kb"⟩]) ≠
      generated_text
        ((group_functions_by_module
          [⟨"a_fn", "get", "/a", "ka"⟩, ⟨"b_fn", "post", "/b", "kb"⟩]).reverse) ∧
    (generate_module_configure ["k"]
        [⟨"b_fn", "post", "/b", "k"⟩, ⟨"a_fn", "get", "/a", "k"⟩]).routes =
      [("POST", "/k/b"), ("GET", "/k/a")] ∧
    (generate_module_configure ["k"]
        [⟨"b_fn", "post", "/b", "k"⟩, ⟨"a_fn", "get", "/a", "k"⟩]).routes ≠
      [("GET", "/k/a"), ("POST", "/k/b")] := by
  refine ⟨by decide, (List.reverse_perm _).symm, by decide, by decide, by decide⟩

/-- C1 (amended): no sorting is performed before emission.  The emitted
diagnostic route list is exactly the in-order concatenation, group by
group in the grouped map's (unspecified) iteration order, of each group's
declarations in insertion order — so output is a pure function of that
iteration order rather than independent of it. -/
theorem c1_emission_order_amended
    (grouped : List (List String × List RouteFunction)) :
    (generate_configure_functions_and_routes grouped).2.2 =
      grouped.flatMap (fun kv =>
        kv.2.map (fun f =>
          (str_to_upper f.method, mod_scope kv.1 ++ f.route_path))) :=
  generate_routes_eq grouped

/-- C2 (counterexample): for the file `handler/agency.rs` containing a
nested module also named `agency` with the handler
`#[get("/agency/{id}")] get_agency`, extraction yields a module path in
which the colliding segment `agency` appears exactly THREE times
(`handler::agency::agency::agency`), not twice as claimed. -/
theorem c2_module_doubling_counterexample :
    process_items
        [Item.md "agency"
          (some [Item.fn "get_agency" [⟨["get"], some "/agency/{id}"⟩]])]
        (build_current_module "crate" "handler/agency.rs") "agency" =
      [⟨"get_agency", "get", "/agency/{id}",
        "handler::agency::agency::agency"⟩] ∧
    module_segments
        ⟨"get_agency", "get", "/agency/{id}",
          "handler::agency::agency::agency"⟩ =
      ["handler", "agency", "agency", "agency"] ∧
    (module_segments
        ⟨"get_agency", "get", "/agency/{id}",
          "handler::agency::agency::agency"⟩).count "agency" = 3 ∧
    ¬ module_segments
        ⟨"get_agency", "get", "/agency/{id}",
          "handler::agency::agency::agency"⟩ =
      ["handler", "agency", "agency"] := by
  decide

/-- C2 (amended): for a file named `agency` whose top-level nested module
is also named `agency`, the colliding segment appears exactly three times
(once from the file's base name in the base module path, plus the doubled
push of file stem and module name in `handle_module`); for the same file
with a nested module named `agency_api` the module path is
`[..., "handler", "agency", "agency_api"]` as claimed. -/
theorem c2_module_doubling_amended :
    process_items
        [Item.md "agency"
          (some [Item.fn "get_agency" [⟨["get"], some "/agency/{id}"⟩]])]
        (build_current_module "crate" "handler/agency.rs") "agency" =
      [⟨"get_agency", "get", "/agency/{id}",
        "handler::agency::agency::agency"⟩] ∧
    (module_segments
        ⟨"get_agency", "get", "/agency/{id}",
          "handler::agency::agency::agency"⟩).count "agency" = 3 ∧
    process_items
        [Item.md "agency_api"
          (some [Item.fn "get_agency" [⟨["get"], some "/agency/{id}"⟩]])]
        (build_current_module "crate" "handler/agency.rs") "agency" =
      [⟨"get_agency", "get", "/agency/{id}",
        "handler::agency::agency_api"⟩] ∧
    module_segments
        ⟨"get_agency", "get", "/agency/{id}",
          "handler::agency::agency_api"⟩ =
      ["handler", "agency", "agency_api"] := by
  decide

/-- C3: in any linearization of `n ≥ 1` concurrent calls of the generated
`configure` (each performing one SeqCst compare-exchange on the one-shot
flag), exactly one call wins the flag, and the total number of diagnostic
log lines across all calls is exactly one per discovered route. -/
theorem c3_one_shot_logging (n : Nat) (routes : List (String × String))
    (h : 1 ≤ n) :
    (run_configure_calls n false).count true = 1 ∧
    total_log_lines n routes = routes.length := by
  obtain ⟨m, rfl⟩ : ∃ m, n = m + 1 := ⟨n - 1, by omega⟩
  constructor
  · simp [run_configure_calls, cas_step, run_configure_calls_true,
      List.count_replicate]
  · simp [total_log_lines, run_configure_calls, cas_step,
      run_configure_calls_true, List.map_replicate, List.sum_replicate]

/-- C3 (witness): five concurrent callers, two discovered routes — one
winner and exactly two log lines in total. -/
theorem c3_one_shot_logging_witness :
    (run_configure_calls 5 false).count true = 1 ∧
    total_log_lines 5
      [("GET", "/api/user/userInfo/{id}"), ("POST", "/echo")] = 2 :=
  c3_one_shot_logging 5
    [("GET", "/api/user/userInfo/{id}"), ("POST", "/echo")] (by decide)

/-- C4: the namespace-qualified marker `#[actix_web::get("/p")]` is
recognized by `is_route_attribute` (whose own comment says the full-path
form is supported), but `get_attr_key` only accepts single-segment
attribute names, so `parse_route_attribute` fails and no RouteDeclaration
is produced — unlike the bare form `#[get("/p")]`. -/
theorem c4_qualified_marker_code_bug :
    is_route_attribute ⟨["actix_web", "get"], some "/p"⟩ = true ∧
    get_attr_key ⟨["actix_web", "get"], some "/p"⟩ = none ∧
    parse_route_attribute ⟨["actix_web", "get"], some "/p"⟩ = none ∧
    extract_route_info "h" [⟨["actix_web", "get"], some "/p"⟩] = none ∧
    extract_route_info "h" [⟨["get"], some "/p"⟩] =
      some ⟨"h", "get", "/p", ""⟩ := by
  decide

/-- C5: the claim (and the spec) describe the intent, but the code fails
on exactly the claimed inputs: keyword segments are built with
`Ident::new("r#…")` (`configure_builder.rs`, keyword branch of
`generate_module_configure`), and `Ident::new` panics on any
`r#`-prefixed string — raw identifiers require `Ident::new_raw`.  So for
a module group containing the reserved segment `type`, macro expansion
panics (`none`) instead of succeeding with escaped, syntactically valid
text, while the same group without a keyword segment emits exactly the
intended unit. -/
theorem c5_keyword_escaping_panics :
    is_rust_keyword "type" = true ∧
    escape_segment "type" = "r#type" ∧
    ident_new "r#type" = none ∧
    service_stmt_emitted ⟨"h", "get", "/t", "handler::type"⟩ = none ∧
    generate_module_configure_emitted ["handler", "type"]
        [⟨"h", "get", "/t", "handler::type"⟩] = none ∧
    generate_module_configure_emitted ["handler", "x"]
        [⟨"h", "get", "/t", "handler::x"⟩] =
      some (generate_module_configure ["handler", "x"]
        [⟨"h", "get", "/t", "handler::x"⟩]) := by
  decide

/-- C6 (counterexample): in the no-pattern path (`scan_directory` /
`handle_file`, which is reached when the macro is invoked without
arguments), a file named `main.rs` containing `#[get("/health")] health`
IS processed and produces a RouteDeclaration — the built-in exclusions of
the pattern path do not apply there, refuting "with or without pattern
arguments". -/
theorem c6_builtin_exclusions_counterexample :
    handle_file_no_pattern []
        ⟨20, some [Item.fn "health" [⟨["get"], some "/health"⟩]],
          "crate", "main.rs"⟩ =
      some [⟨"health", "get", "/health", ""⟩] ∧
    path_file_name "main.rs" = "main.rs" := by
  decide

/-- C6 (amended): in generation runs WITH pattern arguments, the built-in
exclusions do hold: every file named `main.rs` is skipped by
`should_skip_file`, and every path matched by the always-appended
exclusion `route_codegen/src/**` is rejected by the compiled rules. -/
theorem c6_builtin_exclusions_amended (patterns : List String)
    (relPath p : String) (hname : path_file_name relPath = "main.rs")
    (hmatch : glob_is_match "route_codegen/src/**" p = true) :
    should_skip_file true relPath (build_scan_rules patterns) = true ∧
    (build_scan_rules patterns).should_include p = false := by
  constructor
  · have hext : path_extension relPath = some "rs" := by
      unfold path_extension
      rw [hname]
      decide
    unfold should_skip_file
    rw [hext, hname]
    simp
  · have hexc : "route_codegen/src/**" ∈
        (build_scan_rules patterns).exclude_patterns := by
      show "route_codegen/src/**" ∈
        (split_include_exclude (patterns ++ ["!route_codegen/src/**"])).2
      unfold split_include_exclude
      rw [List.foldl_append]
      exact List.mem_append_right _ (by decide)
    have hexcmatch :
        glob_set_is_match (build_scan_rules patterns).exclude_patterns p
          = true := by
      unfold glob_set_is_match
      rw [List.any_eq_true]
      exact ⟨_, hexc, hmatch⟩
    unfold ScanRules.should_include
    rw [hexcmatch]
    simp

/-- C6 (witness): with pattern `**/*.rs`, the file `src/main.rs` is
skipped and `route_codegen/src/lib.rs` is excluded. -/
theorem c6_builtin_exclusions_witness :
    should_skip_file true "src/main.rs" (build_scan_rules ["**/*.rs"]) = true ∧
    (build_scan_rules ["**/*.rs"]).should_include "route_codegen/src/lib.rs"
      = false :=
  c6_builtin_exclusions_amended ["**/*.rs"] "src/main.rs"
    "route_codegen/src/lib.rs" (by decide) (by decide)

/-- C7: a file on which parsing fails contributes nothing to the driver
loop's result (its declarations are dropped atomically, since the parse
happens before any extraction), and the result is exactly the one
obtained without that file — all other files' declarations survive. -/
theorem c7_parse_error_skip (pre post : List FileInput) (bad : FileInput)
    (e : String) (h : process_file bad = .error e) :
    collect_route_functions (pre ++ bad :: post) =
      collect_route_functions (pre ++ post) := by
  rw [collect_route_functions_eq, collect_route_functions_eq]
  have hbad : file_contribution bad = [] := by
    unfold file_contribution
    rw [h]
  simp [List.flatMap_append, List.flatMap_cons, hbad]

/-- C7 (witness): an unparsable file between two good files is dropped,
and both good files' declarations are still emitted. -/
theorem c7_parse_error_skip_witness :
    process_file ⟨10, none, "crate", "y.rs"⟩ =
      .error "Failed to parse file content" ∧
    collect_route_functions
        [⟨10, some [Item.fn "a" [⟨["get"], some "/a"⟩]], "crate", "x.rs"⟩,
         ⟨10, none, "crate", "y.rs"⟩,
         ⟨10, some [Item.fn "b" [⟨["post"], some "/b"⟩]], "crate", "z.rs"⟩] =
      collect_route_functions
        [⟨10, some [Item.fn "a" [⟨["get"], some "/a"⟩]], "crate", "x.rs"⟩,
         ⟨10, some [Item.fn "b" [⟨["post"], some "/b"⟩]], "crate", "z.rs"⟩] ∧
    collect_route_functions
        [⟨10, some [Item.fn "a" [⟨["get"], some "/a"⟩]], "crate", "x.rs"⟩,
         ⟨10, none, "crate", "y.rs"⟩,
         ⟨10, some [Item.fn "b" [⟨["post"], some "/b"⟩]], "crate", "z.rs"⟩] =
      [⟨"a", "get", "/a", "x"⟩, ⟨"b", "post", "/b", "z"⟩] :=
  ⟨rfl,
   c7_parse_error_skip
     [⟨10, some [Item.fn "a" [⟨["get"], some "/a"⟩]], "crate", "x.rs"⟩]
     [⟨10, some [Item.fn "b" [⟨["post"], some "/b"⟩]], "crate", "z.rs"⟩]
     ⟨10, none, "crate", "y.rs"⟩ "Failed to parse file content" rfl,
   by decide⟩

/-- C8: the compiled matcher satisfies
`shouldInclude(p) = matchesInclude AND NOT matchesExclude`; `!`-prefixed
patterns, marker stripped, form the exclude set; and under
`["src/**/*.rs", "!src/generated/**"]` the path `src/handler/nation.rs`
is included while `src/generated/x.rs` is excluded. -/
theorem c8_glob_filtering :
    (∀ (rules : ScanRules) (p : String),
      rules.should_include p =
        (glob_set_is_match rules.include_patterns p &&
          !glob_set_is_match rules.exclude_patterns p)) ∧
    split_include_exclude ["src/**/*.rs", "!src/generated/**"] =
      (["src/**/*.rs"], ["src/generated/**"]) ∧
    (ScanRules.mk ["src/**/*.rs"] ["src/generated/**"]).should_include
      "src/handler/nation.rs" = true ∧
    (ScanRules.mk ["src/**/*.rs"] ["src/generated/**"]).should_include
      "src/generated/x.rs" = false := by
  refine ⟨fun rules p => rfl, by decide, by decide, by decide⟩

/-- C9 (counterexample): with markers `#[get("/a")]` then `#[post]` (no
argument), the LAST recognized marker is `post`, yet the produced
declaration carries method `get` and path `/a` — a recognized marker
whose argument fails to parse does not win, refuting "the last recognized
marker encountered". -/
theorem c9_last_marker_counterexample :
    is_route_attribute ⟨["post"], none⟩ = true ∧
    extract_route_info "f" [⟨["get"], some "/a"⟩, ⟨["post"], none⟩] =
      some ⟨"f", "get", "/a", ""⟩ ∧
    (extract_route_info "f"
        [⟨["get"], some "/a"⟩, ⟨["post"], none⟩]).map RouteFunction.method ≠
      some "post" := by
  decide

/-- C9 (amended): at most one RouteDeclaration is produced per function
(the result is an `Option`), and its method and path are those of the
last marker that is both recognized AND successfully parsed (single
segment name, string-literal argument); recognized markers whose parse
fails do not override earlier ones. -/
theorem c9_last_marker_amended (name : String) (attrs : List RAttr) :
    extract_route_info name attrs =
      (route_candidates attrs).getLast?.map
        (fun r => ⟨name, r.1, r.2, ""⟩) := by
  unfold extract_route_info
  rw [extract_foldl_eq_candidates, foldl_overwrite_eq_getLast]
  cases (route_candidates attrs).getLast? with
  | none => rfl
  | some r => rfl

/-- C10: `build_module_prefix` drops every segment equal to `crate` or
`mod` wherever it occurs (not only a leading root marker): the prefix of
a stack equals the prefix of the stack with all such segments removed,
and on a concrete stack with interior and trailing occurrences the
prefix, the grouping key, the mount scope, and the emitted
fully-qualified handler reference all omit them. -/
theorem c10_crate_mod_dropped :
    (∀ current_module : List String,
      build_module_prefix current_module =
        build_module_prefix (current_module.filter
          (fun s => !(s = "crate" || s = "mod")))) ∧
    build_module_prefix ["crate", "handler", "mod", "x", "crate", "y"] =
      "handler::x::y" ∧
    process_item_with_module (Item.fn "f" [⟨["put"], some "/p"⟩])
        ["crate", "handler", "mod", "x", "crate", "y"] "stem" =
      [⟨"f", "put", "/p", "handler::x::y"⟩] ∧
    module_segments ⟨"f", "put", "/p", "handler::x::y"⟩ =
      ["handler", "x", "y"] ∧
    mod_scope ["handler", "x", "y"] = "/handler/x/y" ∧
    service_stmt ⟨"f", "put", "/p", "handler::x::y"⟩ =
      "cfg.service(handler::x::y::f);" := by
  refine ⟨?_, by decide, by decide, by decide, by decide, by decide⟩
  intro cur
  unfold build_module_prefix
  exact congrArg Prod.fst (build_module_prefix_foldl_filter cur ("", true))

end RouteCodegen
